import Mathlib

/-!
Verification of the `BookSearch` client (`lib/open_library_api.py`).

The Python code is shallowly embedded: Python strings are Lean `String`s
(with the relevant string methods modelled on the underlying `List Char`),
Python `None`-able arguments are `Option`s, the JSON response mapping is
modelled by the fields the code reads (the `docs` key holding book
records), and the HTTP transport is an explicit oracle `String → HttpOutcome`
so that `search_books` becomes a pure function from the oracle to its
printed diagnostics and its returned value.
-/

namespace BookSearch

/-- Characters stripped by Python `str.strip()` (ASCII whitespace). -/
def isPySpace (c : Char) : Bool :=
  c = ' ' || c = '\t' || c = '\n' || c = '\x0d' || c = '\x0b' || c = '\x0c'

/-- Python `str.strip()` on the character list: drop whitespace at both ends. -/
def pyStrip (l : List Char) : List Char :=
  ((l.dropWhile isPySpace).reverse.dropWhile isPySpace).reverse

/-- Python `str.strip()` as a `String → String` map. -/
def pyStripS (s : String) : String := ⟨pyStrip s.data⟩

/-- The character map realising `.replace(" ", "+")`. -/
def spaceToPlus (c : Char) : Char := if c = ' ' then '+' else c

/-- `BookSearch.BASE_URL`. -/
def BASE_URL : String := "https://openlibrary.org/search.json"

/-- `self.default_fields` set in `__init__`. -/
def default_fields : List String :=
  ["title", "author_name", "first_publish_year", "publisher", "isbn"]

/-- `self.default_limit` set in `__init__`. -/
def default_limit : Int := 3

/-- `_format_search_term`: `term.strip().replace(" ", "+")`. -/
def _format_search_term (term : String) : String :=
  ⟨(pyStrip term.data).map spaceToPlus⟩

/-- `_build_url`. `fields or self.default_fields` is falsy-aware: `None`
and the empty list both fall back to the defaults; likewise
`limit or self.default_limit` sends `None` and `0` to the default. -/
def _build_url (search_term : String) (search_type : String)
    (fields : Option (List String)) (limit : Option Int) : String :=
  let fields2 : List String :=
    match fields with
    | none => default_fields
    | some fs => if fs.isEmpty then default_fields else fs
  let limit2 : Int :=
    match limit with
    | none => default_limit
    | some n => if n = 0 then default_limit else n
  let formatted_term := _format_search_term search_term
  let fields_str := String.intercalate "," fields2
  BASE_URL ++ "?" ++ search_type ++ "=" ++ formatted_term ++ "&fields=" ++
    fields_str ++ "&limit=" ++ toString limit2

/-- A book record of the `docs` array: each key the formatter reads,
`none` when the key is absent. -/
structure Book where
  title : Option String
  author_name : Option (List String)
  first_publish_year : Option Int
  publisher : Option (List String)
  isbn : Option (List String)
deriving DecidableEq

/-- Python `", ".join(l)`. -/
def joinComma (l : List String) : String := String.intercalate ", " l

/-- Python slicing `s[:3]`: the first three characters. -/
def take3 (s : String) : String := ⟨s.data.take 3⟩

/-- The five-element `result` list built for one book inside
`format_search_results`. -/
def bookLines (book : Book) : List String :=
  ["Title: " ++ book.title.getD "Unknown",
   "Author(s): " ++ joinComma (book.author_name.getD ["Unknown"]),
   "First Published: " ++
     (match book.first_publish_year with
      | none => "Unknown"
      | some y => toString y),
   "Publisher: " ++ joinComma (book.publisher.getD ["Unknown"]),
   "ISBN: " ++ take3 (joinComma (book.isbn.getD ["Unknown"])) ++ "..."]

/-- `format_search_results`. The argument is `none` for the `None`
sentinel; for a mapping, the inner `Option` is the `docs` key (absent or
bound to a list of records). `not api_response or not api_response.get("docs")`
returns the literal string; otherwise the per-book blocks are joined with
blank lines. -/
def format_search_results (api_response : Option (Option (List Book))) : String :=
  match api_response with
  | none => "No results found."
  | some docsOpt =>
    match docsOpt with
    | none => "No results found."
    | some docs =>
      if docs.isEmpty then "No results found."
      else
        String.intercalate "\n\n"
          (docs.map (fun book => String.intercalate "\n" (bookLines book)))

/-- ASCII decimal digit test, as used by Python `int()`. -/
def isDigitCh (c : Char) : Bool := '0' ≤ c && c ≤ '9'

/-- Numeric value of a digit character. -/
def digitVal (c : Char) : Nat := c.toNat - '0'.toNat

/-- Validate a Python integer-literal digit run and remove its
underscores: every underscore must sit between two digits. -/
def stripUnders : List Char → Option (List Char)
  | [] => some []
  | '_' :: c :: rest =>
      if isDigitCh c then (stripUnders rest).map (fun l => c :: l) else none
  | ['_'] => none
  | c :: rest =>
      if isDigitCh c then (stripUnders rest).map (fun l => c :: l) else none

/-- Parse a nonempty digit run (underscore separators allowed between
digits, as in Python) into its value; `none` when malformed. -/
def parseDigitsPy (l : List Char) : Option Nat :=
  match l with
  | [] => none
  | c :: _ =>
      if isDigitCh c then
        (stripUnders l).map (fun ds => ds.foldl (fun acc d => acc * 10 + digitVal d) 0)
      else none

/-- Python `int(s)` on an already-stripped string: optional sign followed
by digits; `none` models the `ValueError`. -/
def pyParseInt (s : String) : Option Int :=
  match s.data with
  | '+' :: rest => (parseDigitsPy rest).map Int.ofNat
  | '-' :: rest => (parseDigitsPy rest).map (fun n => -(Int.ofNat n))
  | l => (parseDigitsPy l).map Int.ofNat

/-- The limit resolution of `interactive_search`:
`limit = min(max(1, int(limit)), 10) if limit else 3`, with a
`ValueError` from `int` caught and replaced by 3. The argument is the raw
prompt answer, stripped by the loop before the test. -/
def resolveLimit (input : String) : Int :=
  let l := pyStripS input
  if l.data.isEmpty then 3
  else
    match pyParseInt l with
    | some n => min (max 1 n) 10
    | none => 3

/-- Outcome of `requests.get(url)` followed by `raise_for_status()`:
either the transport raised (with the exception text), or a response
arrived with a status code and a parsed JSON body, modelled by its `docs`
key. -/
inductive HttpOutcome where
  | transportError (msg : String)
  | success (status : Nat) (body : Option (List Book))

/-- Status codes for which `raise_for_status()` raises. -/
def isHttpError (status : Nat) : Bool := 400 ≤ status && status < 600

/-- An outcome `search_books` treats as a failure: a transport error or a
4xx/5xx status. -/
def isFailureOutcome : HttpOutcome → Bool
  | .transportError _ => true
  | .success status _ => isHttpError status

/-- Text of the `HTTPError` raised by `raise_for_status()`, interpolated
into the diagnostic. -/
def httpErrorText (status : Nat) : String := toString status ++ " Error"

/-- `search_books`, with the HTTP transport as an explicit oracle from
the request URL to its outcome. Returns the list of printed diagnostics
and the value the Python function returns (`none` is the `None`
sentinel). -/
def search_books (net : String → HttpOutcome) (search_term : String)
    (search_type : String) (fields : Option (List String))
    (limit : Option Int) : List String × Option (Option (List Book)) :=
  let url := _build_url search_term search_type fields limit
  match net url with
  | .transportError msg => (["Error making API request: " ++ msg], none)
  | .success status body =>
      if isHttpError status then
        (["Error making API request: " ++ httpErrorText status], none)
      else ([], some body)

end BookSearch

namespace BookSearch

lemma data_append (s t : String) : (s ++ t).data = s.data ++ t.data := rfl

lemma no_space_mapped (l : List Char) : ' ' ∉ l.map spaceToPlus := by
  intro h
  rcases List.mem_map.1 h with ⟨c, _, hc⟩
  by_cases h' : c = ' ' <;> simp [spaceToPlus, h'] at hc

lemma pyParseInt_of_nil (t : String) (h : t.data = []) : pyParseInt t = none := by
  simp [pyParseInt, h, parseDigitsPy]

/-- C5: building the URL for term "the hobbit", type "title", limit 3 and
the default fields yields exactly the documented string. -/
theorem url_for_the_hobbit :
    _build_url "the hobbit" "title" none (some 3) =
      "https://openlibrary.org/search.json?title=the+hobbit&fields=title,author_name,first_publish_year,publisher,isbn&limit=3" := by
  decide

/-- C3: `format_search_results` returns exactly "No results found." for
the `None` sentinel, for a mapping without a `docs` key, and for a
mapping whose `docs` is the empty sequence. -/
theorem no_results_cases :
    format_search_results none = "No results found." ∧
    format_search_results (some none) = "No results found." ∧
    format_search_results (some (some [])) = "No results found." :=
  ⟨rfl, rfl, rfl⟩

/-- C1 counterexample: for a record lacking `author_name`, `publisher`
and `isbn`, the ISBN line is "ISBN: Unk..." (the comma-join of the
default `["Unknown"]` truncated to 3 characters), not "ISBN: ..." as the
claim states. -/
theorem isbn_line_of_bare_record :
    ("ISBN: ..." ∉ bookLines (Book.mk none none none none none)) ∧
    (bookLines (Book.mk none none none none none)).get? 4 = some "ISBN: Unk..." := by
  decide

/-- C1 amended: for every record lacking `author_name`, `publisher` and
`isbn`, the block contains "Author(s): Unknown" and "Publisher: Unknown",
and its ISBN line is "ISBN: Unk..." — the first 3 characters of the
joined default list `["Unknown"]`, then the literal ellipsis. -/
theorem missing_keys_block (b : Book) (ha : b.author_name = none)
    (hp : b.publisher = none) (hi : b.isbn = none) :
    "Author(s): Unknown" ∈ bookLines b ∧ "Publisher: Unknown" ∈ bookLines b ∧
    (bookLines b).get? 4 = some "ISBN: Unk..." := by
  simp [bookLines, ha, hp, hi, joinComma, take3]
  exact ⟨Or.inr (Or.inl (by decide)), Or.inr (Or.inr (Or.inr (Or.inl (by decide)))),
    by decide⟩

theorem missing_keys_block_witness :
    (Book.mk none none none none none).author_name = none ∧
    (Book.mk none none none none none).publisher = none ∧
    (Book.mk none none none none none).isbn = none ∧
    ("Author(s): Unknown" ∈ bookLines (Book.mk none none none none none) ∧
     "Publisher: Unknown" ∈ bookLines (Book.mk none none none none none) ∧
     (bookLines (Book.mk none none none none none)).get? 4 = some "ISBN: Unk...") :=
  ⟨rfl, rfl, rfl, missing_keys_block (Book.mk none none none none none) rfl rfl rfl⟩

/-- C4: whenever the `isbn` key is present with a list of strings, the
ISBN line is the `", "`-join of the entries, truncated to its first 3
characters, then the literal "...". -/
theorem isbn_line_truncates_join (b : Book) (isbns : List String)
    (h : b.isbn = some isbns) :
    (bookLines b).get? 4 = some ("ISBN: " ++ take3 (joinComma isbns) ++ "...") := by
  simp [bookLines, h]

theorem isbn_line_truncates_join_witness :
    (Book.mk none none none none (some ["11111", "22222"])).isbn =
      some ["11111", "22222"] ∧
    (bookLines (Book.mk none none none none (some ["11111", "22222"]))).get? 4 =
      some ("ISBN: " ++ take3 (joinComma ["11111", "22222"]) ++ "...") :=
  ⟨rfl, isbn_line_truncates_join (Book.mk none none none none (some ["11111", "22222"]))
    ["11111", "22222"] rfl⟩

/-- C10: a present-but-empty `author_name` (resp. `publisher`) list
yields "Author(s): " (resp. "Publisher: ") with an empty value; the
"Unknown" substitution happens exactly when the key is absent. -/
theorem empty_list_not_unknown :
    (∀ b : Book, b.author_name = some [] → (bookLines b).get? 1 = some "Author(s): ") ∧
    (∀ b : Book, b.publisher = some [] → (bookLines b).get? 3 = some "Publisher: ") ∧
    (∀ b : Book, b.author_name = none → (bookLines b).get? 1 = some "Author(s): Unknown") ∧
    (∀ b : Book, b.publisher = none → (bookLines b).get? 3 = some "Publisher: Unknown") := by
  refine ⟨?_, ?_, ?_, ?_⟩ <;> intro b h <;> simp [bookLines, h, joinComma] <;> decide

theorem empty_list_not_unknown_witness :
    (Book.mk none (some []) none (some []) none).author_name = some [] ∧
    (bookLines (Book.mk none (some []) none (some []) none)).get? 1 =
      some "Author(s): " :=
  ⟨rfl, empty_list_not_unknown.1 (Book.mk none (some []) none (some []) none) rfl⟩

/-- C6: for every search term containing internal whitespace, the URL
built with the default search type, fields and limit contains no space
character, and the formatted term is the trimmed term with every space
mapped to a plus sign. -/
theorem no_space_in_url (term : String)
    (_h : ∃ c ∈ pyStrip term.data, isPySpace c = true) :
    (' ' ∉ (_build_url term "title" none none).data) ∧
    (_format_search_term term).data = (pyStrip term.data).map spaceToPlus := by
  refine ⟨?_, rfl⟩
  intro hmem
  simp only [_build_url, _format_search_term, data_append, List.mem_append] at hmem
  rcases hmem with (((((((h'|h')|h')|h')|h')|h')|h')|h')|h' <;>
    first
      | exact absurd h' (by decide)
      | exact no_space_mapped _ h'

theorem no_space_in_url_witness :
    (∃ c ∈ pyStrip "the hobbit".data, isPySpace c = true) ∧
    ((' ' ∉ (_build_url "the hobbit" "title" none none).data) ∧
     (_format_search_term "the hobbit").data =
       (pyStrip "the hobbit".data).map spaceToPlus) :=
  ⟨by decide, no_space_in_url "the hobbit" (by decide)⟩

/-- C2 counterexample: with an empty `fields` list the builder does not
produce an empty `fields=` parameter; `fields or self.default_fields`
treats the empty list as falsy and substitutes the defaults. -/
theorem empty_fields_fall_back :
    _build_url "x" "title" (some []) none =
      "https://openlibrary.org/search.json?title=x&fields=title,author_name,first_publish_year,publisher,isbn&limit=3" ∧
    _build_url "x" "title" (some []) none ≠
      "https://openlibrary.org/search.json?title=x&fields=&limit=3" := by
  decide

/-- C2 amended: for every nonempty `fields` list, the `fields=` parameter
of the built URL is exactly the comma-join of the list, in input order;
the empty list instead falls back to the defaults. -/
theorem fields_param_is_join (term ty : String) (fs : List String) (h : fs ≠ []) :
    _build_url term ty (some fs) none =
      BASE_URL ++ "?" ++ ty ++ "=" ++ _format_search_term term ++ "&fields=" ++
        String.intercalate "," fs ++ "&limit=" ++ "3" := by
  cases fs with
  | nil => exact absurd rfl h
  | cons a as => rfl

theorem fields_param_is_join_witness :
    (["isbn", "title"] ≠ ([] : List String)) ∧
    _build_url "x" "title" (some ["isbn", "title"]) none =
      BASE_URL ++ "?" ++ "title" ++ "=" ++ _format_search_term "x" ++ "&fields=" ++
        String.intercalate "," ["isbn", "title"] ++ "&limit=" ++ "3" :=
  ⟨by decide, fields_param_is_join "x" "title" ["isbn", "title"] (by decide)⟩

/-- C9 counterexample: a direct call with limit 0 does not put 0 into the
URL; `limit or self.default_limit` treats 0 as falsy and substitutes the
default 3. -/
theorem zero_limit_falls_back :
    _build_url "x" "title" none (some 0) =
      "https://openlibrary.org/search.json?title=x&fields=title,author_name,first_publish_year,publisher,isbn&limit=3" ∧
    _build_url "x" "title" none (some 0) ≠
      "https://openlibrary.org/search.json?title=x&fields=title,author_name,first_publish_year,publisher,isbn&limit=0" := by
  decide

/-- C9 amended: a direct call passes every nonzero integer limit through
to the URL unconstrained (negative values included); the default 3 is
used when no limit is supplied — and also when the supplied limit is 0,
which the `or`-idiom treats as absent. -/
theorem direct_limit_unconstrained (term ty : String) (n : Int) (h : n ≠ 0) :
    _build_url term ty none (some n) =
      BASE_URL ++ "?" ++ ty ++ "=" ++ _format_search_term term ++ "&fields=" ++
        "title,author_name,first_publish_year,publisher,isbn" ++ "&limit=" ++ toString n ∧
    _build_url term ty none none =
      BASE_URL ++ "?" ++ ty ++ "=" ++ _format_search_term term ++ "&fields=" ++
        "title,author_name,first_publish_year,publisher,isbn" ++ "&limit=" ++ "3" := by
  refine ⟨?_, rfl⟩
  simp only [_build_url, if_neg h]
  rfl

theorem direct_limit_unconstrained_witness :
    ((-5 : Int) ≠ 0) ∧
    (_build_url "x" "title" none (some (-5)) =
      BASE_URL ++ "?" ++ "title" ++ "=" ++ _format_search_term "x" ++ "&fields=" ++
        "title,author_name,first_publish_year,publisher,isbn" ++ "&limit=" ++
        toString (-5 : Int) ∧
     _build_url "x" "title" none none =
      BASE_URL ++ "?" ++ "title" ++ "=" ++ _format_search_term "x" ++ "&fields=" ++
        "title,author_name,first_publish_year,publisher,isbn" ++ "&limit=" ++ "3") :=
  ⟨by decide, direct_limit_unconstrained "x" "title" (-5) (by decide)⟩

/-- C7: the interactive limit inputs "0", "25", "abc" resolve to 1, 10
and 3, a blank input resolves to 3, and in general a parsable integer is
clamped into [1, 10] while an unparsable input falls back to 3. -/
theorem interactive_limit_resolution :
    (resolveLimit "0" = 1 ∧ resolveLimit "25" = 10 ∧ resolveLimit "abc" = 3 ∧
      resolveLimit "" = 3) ∧
    (∀ s : String, ∀ n : Int, pyParseInt (pyStripS s) = some n →
      resolveLimit s = min (max 1 n) 10 ∧ 1 ≤ resolveLimit s ∧ resolveLimit s ≤ 10) ∧
    (∀ s : String, pyParseInt (pyStripS s) = none → resolveLimit s = 3) := by
  refine ⟨by decide, ?_, ?_⟩
  · intro s n h
    by_cases he : (pyStripS s).data.isEmpty
    · rw [pyParseInt_of_nil _ (List.isEmpty_iff.mp he)] at h
      exact absurd h (by simp)
    · have hr : resolveLimit s = min (max 1 n) 10 := by
        simp [resolveLimit, he, h]
      refine ⟨hr, ?_, ?_⟩ <;> rw [hr] <;> omega
  · intro s h
    by_cases he : (pyStripS s).data.isEmpty <;> simp [resolveLimit, he, h]

theorem interactive_limit_resolution_witness :
    pyParseInt (pyStripS " 7 ") = some 7 ∧
    (resolveLimit " 7 " = min (max 1 7) 10 ∧ 1 ≤ resolveLimit " 7 " ∧
      resolveLimit " 7 " ≤ 10) :=
  ⟨by decide, interactive_limit_resolution.2.1 " 7 " 7 (by decide)⟩

/-- C8: whenever the transport fails or the response status is 4xx/5xx,
`search_books` prints a single diagnostic starting with the literal
"Error making API request: ", returns the `None` sentinel instead of
raising, and the formatter renders that sentinel as "No results found.". -/
theorem request_failure_is_no_results (net : String → HttpOutcome)
    (term ty : String) (fs : Option (List String)) (lim : Option Int)
    (h : isFailureOutcome (net (_build_url term ty fs lim)) = true) :
    (search_books net term ty fs lim).2 = none ∧
    (∃ rest, (search_books net term ty fs lim).1 =
      ["Error making API request: " ++ rest]) ∧
    format_search_results (search_books net term ty fs lim).2 =
      "No results found." := by
  simp only [search_books]
  cases hout : net (_build_url term ty fs lim) with
  | transportError msg => exact ⟨rfl, ⟨msg, rfl⟩, rfl⟩
  | success status body =>
      rw [hout] at h
      simp only [isFailureOutcome] at h
      refine ⟨by simp [h], ⟨httpErrorText status, by simp [h]⟩,
        by simp [h, format_search_results]⟩

theorem request_failure_is_no_results_witness :
    isFailureOutcome
      ((fun _ => HttpOutcome.transportError "connection refused")
        (_build_url "x" "title" none none)) = true ∧
    ((search_books (fun _ => HttpOutcome.transportError "connection refused")
        "x" "title" none none).2 = none ∧
     (∃ rest, (search_books (fun _ => HttpOutcome.transportError "connection refused")
        "x" "title" none none).1 = ["Error making API request: " ++ rest]) ∧
     format_search_results
       (search_books (fun _ => HttpOutcome.transportError "connection refused")
         "x" "title" none none).2 = "No results found.") :=
  ⟨rfl, request_failure_is_no_results
    (fun _ => HttpOutcome.transportError "connection refused") "x" "title" none none rfl⟩

end BookSearch
